import Mathlib

/-!
Verification of the profile-extraction pipeline of the simple-tinder-scraper-es
repository. The definitions below are a shallow embedding of the Python source:

* `scraper_simple.py` — the standalone procedural scraper: text classification
  into a fixed category taxonomy (`scrape_profile`), the residual-bucket
  de-duplication pass, the procedural save path (`save_profiles`), and the
  OCR verification helper (`verificar_nombre_con_ocr`).
* `src/ocr_processor.py` — `OCRProcessor.verify_profile_with_ocr`,
  `_has_meaningful_text`, `_cleanup_image`.
* `src/data_extractor.py` — `DataExtractor._extract_image_urls`.
* `src/scraper.py` — `TinderScraper.run`, `_validate_profile`,
  `_perform_swipe_action`.
* `src/utils.py` — `ProfileSaver.save_profiles`, `_clean_profiles`,
  `_format_list_fields`, `_load_existing_profiles`.

Browser interaction, OCR engine output, file contents and random draws are
modelled as explicit oracle inputs (sequences of scan results, OCR attempt
results, per-iteration draws); the control flow around them is translated
statement by statement from the source.
-/

/-- Python values as they occur in the profile records of this scraper:
`none` is Python `None`, `str` a string, `listv` a list (the lists stored in a
profile record — interests, image URLs, category matches, residual texts — are
lists of strings in every code path), and `elem` a Selenium `WebElement`
carrying a `.text` attribute (the `hasattr(value, 'text')` case of the two
cleaning functions). -/
inductive PyVal where
  | none : PyVal
  | str (s : String) : PyVal
  | listv (xs : List String) : PyVal
  | elem (text : String) : PyVal
deriving DecidableEq, Repr

/-- A profile record: a Python dict modelled as an association list in
insertion order. -/
abbrev ProfileDict := List (String × PyVal)

/-- Python `dict.get(k, default)` on an association list. -/
def dictGet (d : ProfileDict) (k : String) (dflt : PyVal) : PyVal :=
  match d.find? (fun kv => kv.1 == k) with
  | some kv => kv.2
  | none => dflt

/-- Python truthiness for the values of `PyVal`: `None` is falsy, a string or
list is truthy iff non-empty, a `WebElement` object is truthy. -/
def truthy : PyVal → Bool
  | PyVal.none => false
  | PyVal.str s => !(s == "")
  | PyVal.listv xs => !xs.isEmpty
  | PyVal.elem _ => true

/-- Python `len(v) == 0` for the sized values (`str`, `list`). In
`TinderScraper._validate_profile` this test is only reached when the value is
truthy and not the string `"NA"`, so for sized values it is dead code (a truthy
string or list has positive length); a non-sized value would raise `TypeError`
there, and the extraction pipeline always stores a list under `"imagenes"`, so
we let the test be `false` on non-sized values. -/
def lenZero : PyVal → Bool
  | PyVal.str s => s == ""
  | PyVal.listv xs => xs.isEmpty
  | _ => false

/-- Python `str.strip()`: drop leading and trailing whitespace. -/
def pyStrip (s : String) : String :=
  String.mk (((s.toList.dropWhile Char.isWhitespace).reverse.dropWhile
    Char.isWhitespace).reverse)

/-- Python `" | ".join(xs)`. -/
def pipeJoin (xs : List String) : String :=
  String.intercalate " | " xs

/- ------------------------------------------------------------------ -/
/- Classification taxonomy (`scraper_simple.scrape_profile`, lines 542-557
   and the de-duplication pass lines 713-725).                          -/
/- ------------------------------------------------------------------ -/

/-- The fixed category order used by the classification loop of
`scraper_simple.scrape_profile` (line 546). -/
def categoryOrder : List String :=
  ["horoscopo", "educacion", "hijos", "vacunacion", "personalidad",
   "comunicacion", "amor"]

/-- State of the classification loop: `classified_data` (as a function from
category name to the list accumulated so far) and the `otros` list. -/
structure ClassifyState where
  data : String → List String
  otros : List String

/-- The inner loop of the classification (lines 546-550): the first category
in `categoryOrder` whose configured vocabulary contains `text`
(`if text in categories[category]: ... break`), if any. -/
def firstCategory (vocab : String → List String) (text : String) :
    Option String :=
  categoryOrder.find? (fun c => (vocab c).contains text)

/-- One iteration of the classification loop (lines 544-552): append `text`
to the first matching category, or to `otros` when no category matches. -/
def classifyOne (vocab : String → List String) (st : ClassifyState)
    (text : String) : ClassifyState :=
  match firstCategory vocab text with
  | some c =>
      { st with data := fun c₀ => if c₀ = c then st.data c₀ ++ [text] else st.data c₀ }
  | none => { st with otros := st.otros ++ [text] }

/-- The whole classification loop over the extracted texts, starting from
empty category lists and an empty `otros`. -/
def classifyTexts (vocab : String → List String) (texts : List String) :
    ClassifyState :=
  texts.foldl (classifyOne vocab) ⟨fun _ => [], []⟩

/-- Conversion of empty category lists to the sentinel (lines 554-557):
`if not classified_data[key]: classified_data[key] = "NA"`. -/
def classifiedField (st : ClassifyState) (c : String) : PyVal :=
  if st.data c = [] then PyVal.str "NA" else PyVal.listv (st.data c)

/-- The `contenido_ya_recogido` set of the de-duplication pass (lines
713-724): all values of the classified category lists (only values that are
still lists contribute — exactly the non-empty categories), every scalar field
value other than `"NA"`, and all interests. Modelled as a list used only
through membership. -/
def contenidoYaRecogido (st : ClassifyState) (scalars interests : List String) :
    List String :=
  (categoryOrder.foldl (fun acc c => acc ++ st.data c) []) ++
    scalars.filter (fun v => !(v == "NA")) ++ interests

/-- The final residual bucket (line 725):
`otros = [item for item in otros if item not in contenido_ya_recogido]`. -/
def otrosFinal (st : ClassifyState) (scalars interests : List String) :
    List String :=
  st.otros.filter (fun item => !((contenidoYaRecogido st scalars interests).contains item))

/- ------------------------------------------------------------------ -/
/- Profile validation and the session loop (`src/scraper.py`).          -/
/- ------------------------------------------------------------------ -/

/-- `TinderScraper._validate_profile` (scraper.py lines 188-210): a record is
valid iff `profile_data.get("imagenes", [])` is truthy, not `"NA"` and not of
length zero, and `profile_data.get("nombre")` is truthy and not `"NA"`. -/
def validate_profile (profile : ProfileDict) : Bool :=
  let images := dictGet profile "imagenes" (PyVal.listv [])
  if !truthy images || images == PyVal.str "NA" || lenZero images then
    false
  else
    let nombre := dictGet profile "nombre" PyVal.none
    if !truthy nombre || nombre == PyVal.str "NA" then false
    else true

/-- Oracle input for one iteration of `TinderScraper.run`: whether the stall
check fired, the pipeline result (`None` = extraction failure), the value of
`random.random()` drawn inside `_perform_swipe_action`, and whether the
`send_keys` swipe succeeded. -/
structure IterInput where
  timedOut : Bool
  extraction : Option ProfileDict
  draw : ℚ
  swipeOk : Bool

/-- Session driver state: the profile buffer, the statistics counters of
`ScrapingStats` used by `run`, and a count of the recovery navigations
(`navigate_to_recommendations` calls) issued. -/
structure SessionState where
  buffer : List ProfileDict
  profilesScraped : Nat
  likes : Nat
  nopes : Nat
  errors : Nat
  recoveries : Nat
deriving DecidableEq, Repr

/-- Initial session state: empty buffer, all counters zero. -/
def initialSession : SessionState := ⟨[], 0, 0, 0, 0, 0⟩

/-- `TinderScraper._perform_swipe_action` (scraper.py lines 212-231): draw,
like iff `random.random() < like_probability`, count a like or a nope; a
failing `send_keys` is caught and counted as an error instead. -/
def performSwipeAction (likeProb : ℚ) (inp : IterInput) (st : SessionState) :
    SessionState :=
  if inp.swipeOk then
    if inp.draw < likeProb then { st with likes := st.likes + 1 }
    else { st with nopes := st.nopes + 1 }
  else { st with errors := st.errors + 1 }

/-- One iteration of the loop body of `TinderScraper.run` (scraper.py lines
90-127): a fired timeout issues a recovery and skips the iteration; a
validated record is buffered and counted and the swipe runs; a record failing
validation is dropped with a recovery and the iteration is skipped (`continue`
before the swipe); a failed extraction counts an error and the swipe still
runs. -/
def runStep (likeProb : ℚ) (st : SessionState) (inp : IterInput) : SessionState :=
  if inp.timedOut then { st with recoveries := st.recoveries + 1 }
  else
    match inp.extraction with
    | some prof =>
        if validate_profile prof then
          performSwipeAction likeProb inp
            { st with buffer := st.buffer ++ [prof],
                      profilesScraped := st.profilesScraped + 1 }
        else { st with recoveries := st.recoveries + 1 }
    | none => performSwipeAction likeProb inp { st with errors := st.errors + 1 }

/-- `TinderScraper.run`: the loop over `num_profiles` iterations, one
`IterInput` per iteration. -/
def runScraper (likeProb : ℚ) (inputs : List IterInput) : SessionState :=
  inputs.foldl (runStep likeProb) initialSession

/-- An iteration reaches `_perform_swipe_action` iff the timeout did not fire
and extraction either failed or produced a record passing validation. -/
def reachesSwipe (inp : IterInput) : Bool :=
  !inp.timedOut &&
    (match inp.extraction with
     | some prof => validate_profile prof
     | none => true)

/- ------------------------------------------------------------------ -/
/- OCR verification (`src/ocr_processor.py` and the parallel
   `scraper_simple.verificar_nombre_con_ocr`).                          -/
/- ------------------------------------------------------------------ -/

/-- One character class of the regex `[A-Za-zÀ-ÿ0-9\.]` used by
`OCRProcessor._has_meaningful_text` (and by
`scraper_simple.extract_name_and_age_from_image`). -/
def isQualifyingChar (c : Char) : Bool :=
  (('A' ≤ c && c ≤ 'Z') || ('a' ≤ c && c ≤ 'z') || ('À' ≤ c && c ≤ 'ÿ') ||
    ('0' ≤ c && c ≤ '9') || (c == '.'))

/-- `OCRProcessor._has_meaningful_text` (ocr_processor.py lines 91-105):
`re.search` over the OCR text succeeds iff some character matches the class. -/
def hasMeaningfulText (text : String) : Bool :=
  text.toList.any isQualifyingChar

/-- Result of one `extract_text_from_image` pass: `decoded` is the OCR text
when the image decoded (`image is not None`), `none` when the image was
unreadable or OCR raised (the `(False, None)` soft-failure path); `badge` is
the result `detect_verification_icon` would give on that pass's image. -/
structure OCRAttempt where
  decoded : Option String
  badge : String

/-- The `has_text` component of `extract_text_from_image`: false when the
image did not decode, otherwise `_has_meaningful_text` of the OCR output. -/
def attemptHasText (a : OCRAttempt) : Bool :=
  match a.decoded with
  | some text => hasMeaningfulText text
  | none => false

/-- Result of `verify_profile_with_ocr`: the success flag, the verification
status string, and whether the screenshot file was deleted afterwards. -/
structure VerifyResult where
  success : Bool
  status : String
  screenshotDeleted : Bool
deriving DecidableEq, Repr

/-- The attempt loop of `OCRProcessor.verify_profile_with_ocr`
(ocr_processor.py lines 153-193), with `fuel` the remaining attempts of
`range(max_attempts)`. Each pass re-reads the screenshot (`attempts i`),
resolves the badge status once (`if verification_status == "NA" and image is
not None`), and returns success at the first pass with text — deleting the
screenshot iff `output.clean_screenshots_after_verification` is set. On
exhaustion it calls `_cleanup_image` unconditionally (line 192), so the
deletion flag of the failure path is `true` regardless of the config flag. -/
def verifyLoop (attempts : Nat → OCRAttempt) (cleanFlag : Bool) (i : Nat)
    (status : String) : Nat → VerifyResult
  | 0 => ⟨false, status, true⟩
  | fuel + 1 =>
    let a := attempts i
    let status₁ := if status == "NA" && a.decoded.isSome then a.badge else status
    if attemptHasText a then ⟨true, status₁, cleanFlag⟩
    else verifyLoop attempts cleanFlag (i + 1) status₁ fuel

/-- `OCRProcessor.verify_profile_with_ocr`: run the attempt loop from the
first attempt with status `"NA"`. -/
def verify_profile_with_ocr (attempts : Nat → OCRAttempt) (cleanFlag : Bool)
    (maxAttempts : Nat) : VerifyResult :=
  verifyLoop attempts cleanFlag 0 "NA" maxAttempts

/-- The attempt loop of `scraper_simple.verificar_nombre_con_ocr` (lines
350-394). It differs from `OCRProcessor.verify_profile_with_ocr` only on the
exhausted-failure path: there the screenshot is removed only
`if config['output']['clean_screenshots_after_verification']` (lines 388-393),
so deletion is flag-guarded on both paths. -/
def verificarLoop (attempts : Nat → OCRAttempt) (cleanFlag : Bool) (i : Nat)
    (status : String) : Nat → VerifyResult
  | 0 => ⟨false, status, cleanFlag⟩
  | fuel + 1 =>
    let a := attempts i
    let status₁ := if status == "NA" && a.decoded.isSome then a.badge else status
    if attemptHasText a then ⟨true, status₁, cleanFlag⟩
    else verificarLoop attempts cleanFlag (i + 1) status₁ fuel

/-- `scraper_simple.verificar_nombre_con_ocr`. -/
def verificar_nombre_con_ocr (attempts : Nat → OCRAttempt) (cleanFlag : Bool)
    (maxAttempts : Nat) : VerifyResult :=
  verificarLoop attempts cleanFlag 0 "NA" maxAttempts

/-- An attempt sequence on which OCR never finds text: every decode fails. -/
def attemptsNeverText : Nat → OCRAttempt := fun _ => ⟨Option.none, "NA"⟩

/- ------------------------------------------------------------------ -/
/- Image-URL discovery (`src/data_extractor.py _extract_image_urls`,
   and the equivalent loop of `scraper_simple.scrape_profile` 491-514). -/
/- ------------------------------------------------------------------ -/

/-- Python substring containment `needle in hay` on character lists. -/
def containsSubstr (needle hay : List Char) : Bool :=
  hay.tails.any (fun t => needle.isPrefixOf t)

/-- The size/format heuristic applied to each URL pulled out of a
`background-image` style (data_extractor.py line 270):
`".webp" in url and len(url) > 250`. -/
def isProfileImageUrl (url : String) : Bool :=
  containsSubstr ".webp".toList url.toList && decide (url.length > 250)

/-- One DOM scan: the URLs matched out of the `background-image` styles
currently in the DOM (`candidates`), filtered by the heuristic and collected
into a set. -/
def extractedUrlSet (candidates : List String) : Finset String :=
  (candidates.filter isProfileImageUrl).toFinset

/-- The scroll/scan loop of `DataExtractor._extract_image_urls`
(data_extractor.py lines 247-292). `scans t` is the candidate URL list the
`t`-th DOM scan yields (each scroll advances `t`); `found` is `urls_found`,
`noChange` is `scrolls_without_changes`, `maxScrolls` the configured
`scraping.scroll_attempts` bound. The source loop has no fuel — `fuel` makes
the recursion structural, and `Option.none` means the loop is still running
after `fuel` iterations (termination theorems below exhibit sufficient fuel). -/
def urlLoop (scans : Nat → List String) (maxScrolls : Nat) (t : Nat)
    (found : Finset String) (noChange : Nat) : Nat → Option (Finset String)
  | 0 => Option.none
  | fuel + 1 =>
    if noChange < maxScrolls then
      if extractedUrlSet (scans t) \ found ≠ ∅ then
        urlLoop scans maxScrolls (t + 1)
          (found ∪ (extractedUrlSet (scans t) \ found)) 0 fuel
      else urlLoop scans maxScrolls (t + 1) found (noChange + 1) fuel
    else some found

/-- `DataExtractor._extract_image_urls`: the loop started on an empty
accumulated set with a zero no-change counter. -/
def extract_image_urls (scans : Nat → List String) (maxScrolls : Nat)
    (fuel : Nat) : Option (Finset String) :=
  urlLoop scans maxScrolls 0 ∅ 0 fuel

/-- A concrete URL passing the heuristic: 246 characters then `".webp"`
(length 251 > 250). -/
def cexUrl : String := String.mk (List.replicate 246 'i' ++ ".webp".toList)

/-- A scan sequence whose first scan sees nothing and whose every later scan
sees `cexUrl`: the discoverable set is eventually fully returned, but only
from the second scan on. -/
def scansLate : Nat → List String := fun t => if t = 0 then [] else [cexUrl]

/- ------------------------------------------------------------------ -/
/- The two save paths (`src/utils.py ProfileSaver` and
   `scraper_simple.save_profiles`).                                     -/
/- ------------------------------------------------------------------ -/

/-- The list fields named by both save paths (`fields_to_join` in
scraper_simple.py lines 208-209, `list_fields` in utils.py lines 178-181). -/
def listFields : List String :=
  ["intereses", "otros", "horoscopo", "educacion", "hijos", "vacunacion",
   "personalidad", "comunicacion", "amor"]

/-- Per-value cleaning of `ProfileSaver._clean_profiles` (utils.py lines
144-162): a `WebElement` becomes its stripped text, a non-empty list is
pipe-joined (`" | ".join([str(item) for item in value])` — the items are
strings here, so `str(item)` is the item), an empty list becomes `"NA"`,
`None` becomes `"NA"`, anything else is kept. -/
def clean_value_saver : PyVal → PyVal
  | PyVal.elem text => PyVal.str (pyStrip text)
  | PyVal.listv xs => if xs.isEmpty then PyVal.str "NA" else PyVal.str (pipeJoin xs)
  | PyVal.none => PyVal.str "NA"
  | PyVal.str s => PyVal.str s

/-- Per-value cleaning of the standalone `scraper_simple.save_profiles`
(lines 189-205): identical to the collaborator's on `WebElement` and list
values (non-empty list pipe-joined — when all items are strings the source
joins them directly, otherwise their `str()` images, which coincide for
string items — empty list `"NA"`), but the final `else` keeps the value
unchanged, so `None` stays `None`. -/
def clean_value_simple : PyVal → PyVal
  | PyVal.elem text => PyVal.str (pyStrip text)
  | PyVal.listv xs => if xs.isEmpty then PyVal.str "NA" else PyVal.str (pipeJoin xs)
  | v => v

/-- The second cleaning pass both paths share (`_format_list_fields`, utils.py
lines 171-190, and scraper_simple.py lines 207-218): for the designated list
fields, a value that is still a list is pipe-joined or defaulted to `"NA"`.
After the per-value pass no value is a list, so this pass is inert, but it is
kept as in the source. -/
def format_list_fields (d : ProfileDict) : ProfileDict :=
  d.map (fun kv =>
    if kv.1 ∈ listFields then
      match kv.2 with
      | PyVal.listv xs =>
          (kv.1, if xs.isEmpty then PyVal.str "NA" else PyVal.str (pipeJoin xs))
      | v => (kv.1, v)
    else kv)

/-- `ProfileSaver._clean_profiles` applied to one record. -/
def clean_profile_saver (d : ProfileDict) : ProfileDict :=
  format_list_fields (d.map (fun kv => (kv.1, clean_value_saver kv.2)))

/-- `ProfileSaver._clean_profiles` over a batch. -/
def clean_profiles_saver (ps : List ProfileDict) : List ProfileDict :=
  ps.map clean_profile_saver

/-- The cleaning pass of the standalone `scraper_simple.save_profiles`
applied to one record. -/
def clean_profile_simple (d : ProfileDict) : ProfileDict :=
  format_list_fields (d.map (fun kv => (kv.1, clean_value_simple kv.2)))

/-- The on-disk JSON file: `Option.none` when the file is absent, fails to
parse, or does not hold an array — all of which `_load_existing_profiles`
(utils.py lines 192-217) maps to the empty collection. -/
abbrev FileState := Option (List ProfileDict)

/-- `ProfileSaver._load_existing_profiles`. -/
def load_existing_profiles (file : FileState) : List ProfileDict :=
  file.getD []

/-- Outcome of one `ProfileSaver.save_profiles` call: the rewritten file, the
number of newly flushed records, and the reported total
(`len(existing_profiles)` after the extend, utils.py line 127). -/
structure SaveOutcome where
  file : FileState
  savedCount : Nat
  totalCount : Nat
deriving DecidableEq, Repr

/-- `ProfileSaver.save_profiles` (utils.py lines 103-132): clean the new
batch, load the existing array, extend it, rewrite the whole file, report the
batch size and the new total. -/
def profile_saver_save (file : FileState) (newProfiles : List ProfileDict) :
    SaveOutcome :=
  let cleaned := clean_profiles_saver newProfiles
  let existing := load_existing_profiles file
  let updated := existing ++ cleaned
  ⟨some updated, cleaned.length, updated.length⟩

/-- Boolean test for the `None` constructor. -/
def PyVal.isNoneV : PyVal → Bool
  | PyVal.none => true
  | _ => false

/-- Boolean test for the list constructor. -/
def PyVal.isListV : PyVal → Bool
  | PyVal.listv _ => true
  | _ => false

/- ------------------------------------------------------------------ -/
/- Concrete instances used by counterexamples and witnesses.            -/
/- ------------------------------------------------------------------ -/

/-- A configuration with every category vocabulary empty. -/
def emptyVocab : String → List String := fun _ => []

/-- The vocabulary of the specification scenario: the horoscopo category
holds exactly the text `"Aries"`, every other vocabulary is empty. -/
def scenarioVocab : String → List String :=
  fun c => if c = "horoscopo" then ["Aries"] else []

/-- The input text list of the specification scenario. -/
def scenarioTexts : List String := ["Aries", "Le gusta correr"]

/-- An extracted record with a name but an empty image list: it fails
`_validate_profile`. -/
def failProfile : ProfileDict :=
  [("nombre", PyVal.str "Ana"), ("imagenes", PyVal.listv [])]

/-- An extracted record passing `_validate_profile`. -/
def okProfile : ProfileDict :=
  [("nombre", PyVal.str "Ana"), ("imagenes", PyVal.listv ["u1"])]

/-- An iteration on which extraction failed (`None`), no timeout, a draw of
1 (never below any probability), a successful swipe. -/
def iterNoExtract : IterInput :=
  ⟨false, Option.none, (1 : ℚ), true⟩

/-- An iteration on which extraction produced a record that fails
validation. -/
def iterInvalidProfile : IterInput :=
  ⟨false, some failProfile, (1 : ℚ), true⟩

/-- Three iterations, the middle one yielding a record without images. -/
def cexRunInputs : List IterInput :=
  [iterNoExtract, iterInvalidProfile, iterNoExtract]

/-- An OCR attempt sequence whose first pass fails to decode and whose later
passes read text. -/
def attemptsTextAtOne : Nat → OCRAttempt :=
  fun i => if i = 0 then ⟨Option.none, "NA"⟩ else ⟨some "Ana 25", "Yes"⟩

/-- An OCR attempt sequence that reads text on every pass. -/
def attemptsAlwaysText : Nat → OCRAttempt := fun _ => ⟨some "Ana", "No"⟩

/-- A scan sequence whose every scan sees `cexUrl`. -/
def scansAlways : Nat → List String := fun _ => [cexUrl]

/-- A small raw profile record exercising the cleaning paths. -/
def sampleProfile : ProfileDict :=
  [("nombre", PyVal.str "Ana"), ("intereses", PyVal.listv ["Correr"]),
   ("bio", PyVal.none)]

/- ------------------------------------------------------------------ -/
/- Helper lemmas: the classification loop.                              -/
/- ------------------------------------------------------------------ -/

/-- Characterization of the category lists built by the classification loop:
each category collects, in order, exactly the input texts whose first matching
category it is. -/
theorem classify_foldl_data (vocab : String → List String)
    (texts : List String) (st : ClassifyState) (c : String) :
    (texts.foldl (classifyOne vocab) st).data c =
      st.data c ++
        texts.filter (fun t => firstCategory vocab t == some c) := by
  induction texts generalizing st with
  | nil => simp
  | cons t ts ih =>
    simp only [List.foldl_cons, List.filter_cons]
    rw [ih]
    cases hf : firstCategory vocab t with
    | none =>
      simp only [classifyOne, hf]
      simp
    | some c₁ =>
      simp only [classifyOne, hf]
      by_cases hc : c = c₁
      · subst hc
        simp [List.append_assoc]
      · have : (some c₁ == some c) = false := by
          simp [Ne.symm hc]
        simp [this, hc, if_neg]

/-- Characterization of the residual list built by the classification loop:
it collects, in order, exactly the input texts with no matching category. -/
theorem classify_foldl_otros (vocab : String → List String)
    (texts : List String) (st : ClassifyState) :
    (texts.foldl (classifyOne vocab) st).otros =
      st.otros ++
        texts.filter (fun t => (firstCategory vocab t).isNone) := by
  induction texts generalizing st with
  | nil => simp
  | cons t ts ih =>
    simp only [List.foldl_cons, List.filter_cons]
    rw [ih]
    cases hf : firstCategory vocab t with
    | none => simp [classifyOne, hf]
    | some c₁ => simp [classifyOne, hf]

/-- A text contained in the vocabulary of exactly one category is sent to that
category by the inner classification loop. -/
theorem firstCategory_of_unique (vocab : String → List String)
    (cat t : String) (hcat : cat ∈ categoryOrder) (hmem : t ∈ vocab cat)
    (huniq : ∀ c ∈ categoryOrder, t ∈ vocab c → c = cat) :
    firstCategory vocab t = some cat := by
  have hsome : (firstCategory vocab t).isSome := by
    rw [firstCategory, List.find?_isSome]
    exact ⟨cat, hcat, by simpa [List.elem_iff] using hmem⟩
  obtain ⟨a, ha⟩ := Option.isSome_iff_exists.mp hsome
  have ha' : categoryOrder.find? (fun c => (vocab c).contains t) = some a := ha
  have hamem : a ∈ categoryOrder := List.mem_of_find?_eq_some ha'
  have hpred := List.find?_some ha'
  have hta : t ∈ vocab a := by simpa [List.elem_iff] using hpred
  rw [ha, huniq a hamem hta]

/-- The classified list of a category is exactly the subsequence of input
texts whose first matching category it is. -/
theorem classifyTexts_data (vocab : String → List String)
    (texts : List String) (c : String) :
    (classifyTexts vocab texts).data c =
      texts.filter (fun u => firstCategory vocab u == some c) := by
  have h := classify_foldl_data vocab texts ⟨fun _ => [], []⟩ c
  simpa [classifyTexts] using h

/-- The residual list is exactly the subsequence of input texts with no
matching category. -/
theorem classifyTexts_otros (vocab : String → List String)
    (texts : List String) :
    (classifyTexts vocab texts).otros =
      texts.filter (fun u => (firstCategory vocab u).isNone) := by
  have h := classify_foldl_otros vocab texts ⟨fun _ => [], []⟩
  simpa [classifyTexts] using h

/-- C1 — confirmed. A text present in exactly one configured category
vocabulary is appended (for each of its occurrences in the collected text
list) to that category's list, to no other category's list, and never appears
in the residual otros bucket — neither before nor after the de-duplication
pass; moreover every classified text sits in the first matching category of
the fixed category order. -/
theorem classify_unique_vocab_single_category
    (vocab : String → List String) (texts scalars interests : List String)
    (cat t : String) (hcat : cat ∈ categoryOrder) (hmem : t ∈ vocab cat)
    (huniq : ∀ c ∈ categoryOrder, t ∈ vocab c → c = cat) :
    (t ∈ texts → t ∈ (classifyTexts vocab texts).data cat) ∧
    (∀ c, c ≠ cat → t ∉ (classifyTexts vocab texts).data c) ∧
    t ∉ (classifyTexts vocab texts).otros ∧
    t ∉ otrosFinal (classifyTexts vocab texts) scalars interests ∧
    (∀ u c, u ∈ (classifyTexts vocab texts).data c →
      firstCategory vocab u = some c) := by
  have hfc : firstCategory vocab t = some cat :=
    firstCategory_of_unique vocab cat t hcat hmem huniq
  refine ⟨?_, ?_, ?_, ?_, ?_⟩
  · intro ht
    rw [classifyTexts_data]
    exact List.mem_filter.mpr ⟨ht, by simp [hfc]⟩
  · intro c hc hmem'
    rw [classifyTexts_data] at hmem'
    have h2 := (List.mem_filter.mp hmem').2
    simp only [hfc, beq_iff_eq, Option.some.injEq, decide_eq_true_eq] at h2
    exact hc h2.symm
  · intro hmem'
    rw [classifyTexts_otros] at hmem'
    have h2 := (List.mem_filter.mp hmem').2
    simp [hfc] at h2
  · intro hmem'
    have hmem₂ := List.mem_of_mem_filter hmem'
    rw [classifyTexts_otros] at hmem₂
    have h2 := (List.mem_filter.mp hmem₂).2
    simp [hfc] at h2
  · intro u c hmem'
    rw [classifyTexts_data] at hmem'
    have h2 := (List.mem_filter.mp hmem').2
    simpa using h2

/-- Witness for C1: the specification scenario — vocabulary with horoscopo
being the list holding Aries, texts Aries and Le gusta correr — puts Aries
into the horoscopo list and keeps it out of the final otros bucket. -/
theorem classify_unique_vocab_single_category_witness :
    "Aries" ∈ (classifyTexts scenarioVocab scenarioTexts).data "horoscopo" ∧
    "Aries" ∉ otrosFinal (classifyTexts scenarioVocab scenarioTexts) [] [] := by
  have h := classify_unique_vocab_single_category scenarioVocab scenarioTexts
    [] [] "horoscopo" "Aries" (by decide) (by decide) (by decide)
  exact ⟨h.1 (by decide), h.2.2.2.1⟩

/-- C7 — counterexample. The de-duplication pass of line 725 only filters
otros against already-classified content: it does not de-duplicate within
otros. A text collected twice that matches no vocabulary appears in the final
otros bucket twice, not exactly once. -/
theorem otros_duplicate_survives_dedup :
    otrosFinal (classifyTexts emptyVocab ["x", "x"]) [] [] = ["x", "x"] ∧
    List.count "x" (otrosFinal (classifyTexts emptyVocab ["x", "x"]) [] []) = 2 ∧
    List.count "x" (otrosFinal (classifyTexts emptyVocab ["x", "x"]) [] []) ≠ 1 := by
  refine ⟨rfl, by decide, by decide⟩

/-- C7 — amended. A collected text matching no vocabulary and distinct from
every already-classified value appears in the final otros bucket with the
same multiplicity it has in the collected list — in particular exactly once
when it was collected exactly once. -/
theorem otros_multiplicity_preserved
    (vocab : String → List String) (texts scalars interests : List String)
    (t : String)
    (hnovocab : ∀ c ∈ categoryOrder, t ∉ vocab c)
    (hnew : t ∉ contenidoYaRecogido (classifyTexts vocab texts) scalars interests) :
    List.count t (otrosFinal (classifyTexts vocab texts) scalars interests) =
      List.count t texts ∧
    (List.count t texts = 1 →
      List.count t (otrosFinal (classifyTexts vocab texts) scalars interests) = 1) := by
  have hfc : firstCategory vocab t = none := by
    rw [firstCategory, List.find?_eq_none]
    intro c hc
    simp only [List.elem_iff, Bool.not_eq_true]
    intro hmem
    exact hnovocab c hc hmem
  have hmain : List.count t
      (otrosFinal (classifyTexts vocab texts) scalars interests) =
      List.count t texts := by
    rw [otrosFinal, List.count_filter (by simpa using hnew),
      classifyTexts_otros, List.count_filter (by simp [hfc])]
  exact ⟨hmain, fun h1 => by rw [hmain, h1]⟩

/-- Witness for C7's amended statement: in the specification scenario, the
unmatched text appears in the final otros bucket exactly once. -/
theorem otros_multiplicity_preserved_witness :
    List.count "Le gusta correr"
      (otrosFinal (classifyTexts scenarioVocab scenarioTexts) [] []) = 1 := by
  have h := otros_multiplicity_preserved scenarioVocab scenarioTexts [] []
    "Le gusta correr" (by decide) (by decide)
  rw [h.1]
  decide

/- ------------------------------------------------------------------ -/
/- The two save paths: C9, C10, C5.                                     -/
/- ------------------------------------------------------------------ -/

/-- The collaborator's per-value cleaning always produces a string. -/
theorem clean_value_saver_is_str (v : PyVal) :
    ∃ s, clean_value_saver v = PyVal.str s := by
  cases v with
  | none => exact ⟨"NA", rfl⟩
  | str s => exact ⟨s, rfl⟩
  | listv xs =>
    by_cases h : xs.isEmpty
    · exact ⟨"NA", by simp [clean_value_saver, h]⟩
    · exact ⟨pipeJoin xs, by simp [clean_value_saver, h]⟩
  | elem t => exact ⟨pyStrip t, rfl⟩

/-- Every value stored by the collaborator's cleaning pipeline is a string. -/
theorem clean_profile_saver_values_str (d : ProfileDict) (k : String) (v : PyVal)
    (h : (k, v) ∈ clean_profile_saver d) : ∃ s, v = PyVal.str s := by
  rw [clean_profile_saver, format_list_fields] at h
  obtain ⟨kv, hkv, heq⟩ := List.mem_map.mp h
  obtain ⟨kv₀, hkv₀, heq₀⟩ := List.mem_map.mp hkv
  obtain ⟨s, hs⟩ := clean_value_saver_is_str kv₀.2
  have hkv2 : kv.2 = PyVal.str s := by
    rw [← heq₀]
    exact hs
  refine ⟨s, ?_⟩
  by_cases h1 : kv.1 ∈ listFields
  · rw [if_pos h1] at heq
    rw [hkv2] at heq
    have := (Prod.ext_iff.mp heq).2
    exact this.symm
  · rw [if_neg h1] at heq
    exact (congrArg Prod.snd heq).symm.trans hkv2

/-- C9 — counterexample. The claimed divergence point does not exist: on an
empty list value the standalone path does not pipe-join but produces the
sentinel, exactly as the collaborator's path does, so the two cleaning
functions agree there. -/
theorem clean_paths_agree_on_empty_list :
    clean_value_simple (PyVal.listv []) = PyVal.str "NA" ∧
    clean_value_saver (PyVal.listv []) = PyVal.str "NA" ∧
    clean_value_simple (PyVal.listv []) = clean_value_saver (PyVal.listv []) := by
  exact ⟨rfl, rfl, rfl⟩

/-- C9 — amended. The two cleaning functions are extensionally equal on every
list value (both pipe-join non-empty lists and default empty lists to the
sentinel) and on string and element values; the paths are nevertheless not
extensionally equal, but the difference is on the value None, which the
standalone path preserves and the collaborator's path replaces by the
sentinel. -/
theorem clean_paths_differ_on_none_not_lists :
    (∀ xs : List String,
      clean_value_simple (PyVal.listv xs) = clean_value_saver (PyVal.listv xs)) ∧
    (∀ t : String,
      clean_value_simple (PyVal.elem t) = clean_value_saver (PyVal.elem t)) ∧
    (∀ s : String,
      clean_value_simple (PyVal.str s) = clean_value_saver (PyVal.str s)) ∧
    clean_value_simple PyVal.none = PyVal.none ∧
    clean_value_saver PyVal.none = PyVal.str "NA" ∧
    clean_value_simple PyVal.none ≠ clean_value_saver PyVal.none := by
  exact ⟨fun xs => rfl, fun t => rfl, fun s => rfl, rfl, rfl, by decide⟩

/-- Witness for C9's amended statement at concrete list values. -/
theorem clean_paths_differ_on_none_not_lists_witness :
    clean_value_simple (PyVal.listv ["a", "b"]) =
      clean_value_saver (PyVal.listv ["a", "b"]) ∧
    clean_value_simple (PyVal.listv []) = clean_value_saver (PyVal.listv []) := by
  exact ⟨clean_paths_differ_on_none_not_lists.1 ["a", "b"],
    clean_paths_differ_on_none_not_lists.1 []⟩

/-- C10 — confirmed. Every field value persisted by the collaborator's
cleaning step is neither None nor a list (it is in fact always a string), so
records it stores contain no null and no list values; the standalone path
does not guarantee this for None values, which it passes through unchanged. -/
theorem saver_clean_output_no_none_no_list (d : ProfileDict) (k : String)
    (v : PyVal) (h : (k, v) ∈ clean_profile_saver d) :
    (PyVal.isNoneV v = false ∧ PyVal.isListV v = false) ∧
    clean_value_simple PyVal.none = PyVal.none := by
  obtain ⟨s, hs⟩ := clean_profile_saver_values_str d k v h
  subst hs
  exact ⟨⟨rfl, rfl⟩, rfl⟩

/-- Witness for C10: cleaning a record holding a None field yields the
sentinel string, which is neither None nor a list. -/
theorem saver_clean_output_no_none_no_list_witness :
    (("bio", PyVal.str "NA") ∈ clean_profile_saver [("bio", PyVal.none)]) ∧
    PyVal.isNoneV (PyVal.str "NA") = false ∧
    PyVal.isListV (PyVal.str "NA") = false := by
  refine ⟨by decide, ?_, ?_⟩
  · exact (saver_clean_output_no_none_no_list [("bio", PyVal.none)] "bio"
      (PyVal.str "NA") (by decide)).1.1
  · exact (saver_clean_output_no_none_no_list [("bio", PyVal.none)] "bio"
      (PyVal.str "NA") (by decide)).1.2

/-- C5 — confirmed. Saving is cumulative: starting from a stored collection
S, flushing batch A and then batch B leaves the file holding
S ++ clean(A) ++ clean(B) in order, and each save reports the newly flushed
count and a total equal to the previously stored records plus the newly
flushed ones. -/
theorem save_profiles_cumulative (S A B : List ProfileDict) :
    (profile_saver_save (some S) A).file = some (S ++ clean_profiles_saver A) ∧
    (profile_saver_save (some S) A).savedCount = A.length ∧
    (profile_saver_save (some S) A).totalCount = S.length + A.length ∧
    (profile_saver_save ((profile_saver_save (some S) A).file) B).file =
      some (S ++ clean_profiles_saver A ++ clean_profiles_saver B) ∧
    (profile_saver_save ((profile_saver_save (some S) A).file) B).savedCount =
      B.length ∧
    (profile_saver_save ((profile_saver_save (some S) A).file) B).totalCount =
      S.length + A.length + B.length := by
  refine ⟨?_, ?_, ?_, ?_, ?_, ?_⟩ <;>
    (simp [profile_saver_save, load_existing_profiles, clean_profiles_saver,
      List.length_append, List.length_map, List.append_assoc]
     try omega)

/-- Witness for C5 at a concrete stored collection and two batches. -/
theorem save_profiles_cumulative_witness :
    (profile_saver_save
        ((profile_saver_save (some []) [sampleProfile]).file)
        [sampleProfile, sampleProfile]).totalCount = 0 + 1 + 2 := by
  exact (save_profiles_cumulative [] [sampleProfile]
    [sampleProfile, sampleProfile]).2.2.2.2.2

/- ------------------------------------------------------------------ -/
/- Session driver: C2 and C6.                                           -/
/- ------------------------------------------------------------------ -/

/-- The swipe action never touches the profile buffer. -/
theorem performSwipe_buffer (p : ℚ) (inp : IterInput) (st : SessionState) :
    (performSwipeAction p inp st).buffer = st.buffer := by
  unfold performSwipeAction
  by_cases hs : inp.swipeOk
  · by_cases hd : inp.draw < p
    · simp [hs, hd]
    · simp [hs, hd]
  · simp [hs]

/-- Consequences of passing `_validate_profile`: the image value is truthy —
in particular not the empty list — not the sentinel, and the name value is
truthy and not the sentinel. -/
theorem validate_profile_spec (prof : ProfileDict)
    (h : validate_profile prof = true) :
    truthy (dictGet prof "imagenes" (PyVal.listv [])) = true ∧
    dictGet prof "imagenes" (PyVal.listv []) ≠ PyVal.str "NA" ∧
    dictGet prof "imagenes" (PyVal.listv []) ≠ PyVal.listv [] ∧
    truthy (dictGet prof "nombre" PyVal.none) = true ∧
    dictGet prof "nombre" PyVal.none ≠ PyVal.str "NA" := by
  rw [validate_profile] at h
  simp only [] at h
  split at h
  next hc => simp at h
  next hc =>
    split at h
    next hc2 => simp at h
    next hc2 =>
      simp only [Bool.or_eq_true, not_or, Bool.not_eq_true', Bool.not_eq_false,
        beq_iff_eq] at hc hc2
      obtain ⟨⟨hA, hB⟩, hC⟩ := hc
      obtain ⟨hD, hE⟩ := hc2
      refine ⟨hA, hB, ?_, hD, hE⟩
      intro heq
      rw [heq] at hA
      simp [truthy] at hA

/-- A profile in the buffer after one step was in the buffer before or passed
validation. -/
theorem runStep_buffer_subset (p : ℚ) (st : SessionState) (inp : IterInput)
    (prof : ProfileDict) (h : prof ∈ (runStep p st inp).buffer) :
    prof ∈ st.buffer ∨ validate_profile prof = true := by
  unfold runStep at h
  by_cases ht : inp.timedOut
  · simp [ht] at h
    exact Or.inl h
  · simp only [ht, Bool.false_eq_true, if_false] at h
    cases hext : inp.extraction with
    | none =>
      rw [hext] at h
      rw [performSwipe_buffer] at h
      exact Or.inl h
    | some prof₂ =>
      simp only [hext] at h
      by_cases hv : validate_profile prof₂ = true
      · rw [if_pos hv, performSwipe_buffer] at h
        simp only [List.mem_append, List.mem_singleton] at h
        rcases h with h | h
        · exact Or.inl h
        · exact Or.inr (h ▸ hv)
      · rw [if_neg hv] at h
        exact Or.inl h

/-- Every profile in the buffer after any number of iterations was already
buffered or passed validation. -/
theorem foldl_buffer_validated (p : ℚ) (inputs : List IterInput)
    (st : SessionState) :
    ∀ prof ∈ (inputs.foldl (runStep p) st).buffer,
      prof ∈ st.buffer ∨ validate_profile prof = true := by
  induction inputs generalizing st with
  | nil => exact fun prof h => Or.inl h
  | cons i is ih =>
    intro prof h
    rw [List.foldl_cons] at h
    rcases ih (runStep p st i) prof h with hmem | hv
    · exact runStep_buffer_subset p st i prof hmem
    · exact Or.inr hv

/-- C2 — confirmed. The session driver buffers a record only if it passes
validation — so every buffered record has a truthy (hence non-empty,
non-sentinel) image value and a truthy name; in particular a record whose
image list is empty is never buffered — and a record failing validation is
dropped unchanged with exactly one recovery navigation issued and no swipe,
error count or statistic recorded for that iteration. -/
theorem validated_profiles_only_buffered (p : ℚ) (inputs : List IterInput) :
    (∀ prof ∈ (runScraper p inputs).buffer,
      validate_profile prof = true ∧
      dictGet prof "imagenes" (PyVal.listv []) ≠ PyVal.listv [] ∧
      truthy (dictGet prof "imagenes" (PyVal.listv [])) = true ∧
      truthy (dictGet prof "nombre" PyVal.none) = true) ∧
    (∀ (st : SessionState) (inp : IterInput) (prof : ProfileDict),
      inp.timedOut = false → inp.extraction = some prof →
      validate_profile prof = false →
      runStep p st inp = { st with recoveries := st.recoveries + 1 }) := by
  constructor
  · intro prof hmem
    have hv : validate_profile prof = true := by
      rcases foldl_buffer_validated p inputs initialSession prof hmem with h | h
      · simp [initialSession] at h
      · exact h
    have hs := validate_profile_spec prof hv
    exact ⟨hv, hs.2.2.1, hs.1, hs.2.2.2.1⟩
  · intro st inp prof ht hext hval
    unfold runStep
    rw [if_neg (by simp [ht])]
    simp only [hext]
    rw [if_neg (by simp [hval])]

/-- Witness for C2: dropping the concrete record without images leaves the
state unchanged except for one recovery navigation. -/
theorem validated_profiles_only_buffered_witness :
    validate_profile failProfile = false ∧
    runStep 0 initialSession iterInvalidProfile =
      { initialSession with recoveries := initialSession.recoveries + 1 } := by
  refine ⟨by decide, ?_⟩
  exact (validated_profiles_only_buffered 0 []).2 initialSession
    iterInvalidProfile failProfile rfl rfl (by decide)

/-- With a zero like-probability and a non-negative draw, the swipe action
records no like and exactly one nope when the swipe succeeds. -/
theorem performSwipe_counts_zero (inp : IterInput) (st : SessionState)
    (h : 0 ≤ inp.draw) :
    (performSwipeAction 0 inp st).likes = st.likes ∧
    (performSwipeAction 0 inp st).nopes =
      st.nopes + (if inp.swipeOk then 1 else 0) := by
  unfold performSwipeAction
  have hnot : ¬(inp.draw < (0 : ℚ)) := not_lt.mpr h
  by_cases hs : inp.swipeOk
  · simp [hs, hnot]
  · simp [hs]

/-- One iteration with zero like-probability: no like is recorded, and a nope
is recorded exactly when the iteration reaches a successful swipe. -/
theorem runStep_zero_counts (st : SessionState) (inp : IterInput)
    (h : 0 ≤ inp.draw) :
    (runStep 0 st inp).likes = st.likes ∧
    (runStep 0 st inp).nopes =
      st.nopes + (if (reachesSwipe inp && inp.swipeOk) then 1 else 0) := by
  unfold runStep reachesSwipe
  by_cases ht : inp.timedOut
  · simp [ht]
  · simp only [ht, Bool.false_eq_true, if_false, Bool.not_false, Bool.true_and]
    cases hext : inp.extraction with
    | none =>
      have hp := performSwipe_counts_zero inp
        { st with errors := st.errors + 1 } h
      simp [hp.1, hp.2]
    | some prof =>
      by_cases hv : validate_profile prof = true
      · have hp := performSwipe_counts_zero inp
          { st with buffer := st.buffer ++ [prof],
                    profilesScraped := st.profilesScraped + 1 } h
        simp [hv, hp.1, hp.2]
      · have hv' : validate_profile prof = false := by simpa using hv
        simp [hv']

/-- Repeated iterations with zero like-probability: likes stay fixed and
nopes advance by the number of iterations that reach a successful swipe. -/
theorem foldl_zero_counts (inputs : List IterInput) (st : SessionState)
    (h : ∀ i ∈ inputs, 0 ≤ i.draw) :
    (inputs.foldl (runStep 0) st).likes = st.likes ∧
    (inputs.foldl (runStep 0) st).nopes =
      st.nopes +
        (inputs.filter (fun i => reachesSwipe i && i.swipeOk)).length := by
  induction inputs generalizing st with
  | nil => simp
  | cons i is ih =>
    have hi : 0 ≤ i.draw := h i (by simp)
    have hrest : ∀ j ∈ is, 0 ≤ j.draw := fun j hj => h j (by simp [hj])
    have hstep := runStep_zero_counts st i hi
    have hih := ih (runStep 0 st i) hrest
    rw [List.foldl_cons]
    constructor
    · rw [hih.1, hstep.1]
    · rw [hih.2, hstep.2, List.filter_cons]
      by_cases hc : (reachesSwipe i && i.swipeOk) = true
      · simp only [hc, if_true, List.length_cons]
        omega
      · simp only [hc, if_false, Bool.false_eq_true]
        omega

/-- C6 — counterexample. With three iterations, like-probability zero, no
timeout and successful swipes, a middle iteration whose extracted record
fails validation skips the swipe entirely: only 2 reject actions are issued,
not 3 — the accept/reject draw is not performed once per iteration
independent of profile content. -/
theorem reject_count_not_three_on_invalid_profile :
    cexRunInputs.length = 3 ∧
    (runScraper 0 cexRunInputs).nopes = 2 ∧
    (runScraper 0 cexRunInputs).likes = 0 ∧
    (runScraper 0 cexRunInputs).nopes ≠ 3 := by
  refine ⟨rfl, by decide, by decide, by decide⟩

/-- C6 — amended. With like-probability zero and non-negative draws no accept
action is ever issued, and the number of reject actions equals the number of
iterations that reach a successful swipe (no timeout, and extraction either
failed or passed validation); in particular a 3-iteration session in which
every iteration reaches a successful swipe issues exactly 3 rejects. -/
theorem like_probability_zero_reject_count (inputs : List IterInput)
    (h : ∀ i ∈ inputs, 0 ≤ i.draw) :
    (runScraper 0 inputs).likes = 0 ∧
    (runScraper 0 inputs).nopes =
      (inputs.filter (fun i => reachesSwipe i && i.swipeOk)).length ∧
    (inputs.length = 3 → (∀ i ∈ inputs, (reachesSwipe i && i.swipeOk) = true) →
      (runScraper 0 inputs).nopes = 3) := by
  have hf := foldl_zero_counts inputs initialSession h
  refine ⟨?_, ?_, ?_⟩
  · simpa [initialSession, runScraper] using hf.1
  · simpa [initialSession, runScraper] using hf.2
  · intro hlen hall
    have hfe : inputs.filter (fun i => reachesSwipe i && i.swipeOk) = inputs :=
      List.filter_eq_self.mpr hall
    have h2 : (runScraper 0 inputs).nopes =
        (inputs.filter (fun i => reachesSwipe i && i.swipeOk)).length := by
      simpa [initialSession, runScraper] using hf.2
    rw [h2, hfe, hlen]

/-- Witness for C6's amended statement: three extraction-failure iterations
with successful swipes yield exactly 3 rejects and 0 accepts. -/
theorem like_probability_zero_reject_count_witness :
    (runScraper 0 [iterNoExtract, iterNoExtract, iterNoExtract]).nopes = 3 ∧
    (runScraper 0 [iterNoExtract, iterNoExtract, iterNoExtract]).likes = 0 := by
  have h := like_probability_zero_reject_count
    [iterNoExtract, iterNoExtract, iterNoExtract] (by decide)
  exact ⟨h.2.2 (by decide) (by decide), h.1⟩

/- ------------------------------------------------------------------ -/
/- OCR verification: C3 and C8.                                         -/
/- ------------------------------------------------------------------ -/

/-- The attempt loop succeeds iff one of the attempts inside its fuel window
finds text. -/
theorem verifyLoop_success_iff (attempts : Nat → OCRAttempt)
    (cleanFlag : Bool) :
    ∀ (fuel i : Nat) (status : String),
      ((verifyLoop attempts cleanFlag i status fuel).success = true ↔
        ∃ j, j < fuel ∧ attemptHasText (attempts (i + j)) = true) := by
  intro fuel
  induction fuel with
  | zero =>
    intro i status
    simp [verifyLoop]
  | succ fuel ih =>
    intro i status
    by_cases ha : attemptHasText (attempts i) = true
    · simp only [verifyLoop, ha, if_true]
      constructor
      · intro _
        exact ⟨0, Nat.succ_pos fuel, by simpa using ha⟩
      · intro _
        trivial
    · simp only [verifyLoop, ha, if_false, Bool.false_eq_true]
      rw [ih]
      constructor
      · rintro ⟨j, hj, hjt⟩
        exact ⟨j + 1, by omega, by
          have : i + 1 + j = i + (j + 1) := by omega
          rwa [this] at hjt⟩
      · rintro ⟨j, hj, hjt⟩
        cases j with
        | zero => exact absurd (by simpa using hjt) ha
        | succ j =>
          exact ⟨j, by omega, by
            have : i + (j + 1) = i + 1 + j := by omega
            rwa [this] at hjt⟩

/-- The attempt loop returns at the first attempt with text: the result does
not depend on the fuel beyond that attempt. -/
theorem verifyLoop_early_return (attempts : Nat → OCRAttempt)
    (cleanFlag : Bool) :
    ∀ (c i : Nat) (status : String) (n m : Nat), c < n → c < m →
      attemptHasText (attempts (i + c)) = true →
      (∀ j < c, attemptHasText (attempts (i + j)) = false) →
      verifyLoop attempts cleanFlag i status n =
        verifyLoop attempts cleanFlag i status m := by
  intro c
  induction c with
  | zero =>
    intro i status n m hn hm hfirst _
    obtain ⟨n₁, rfl⟩ := Nat.exists_eq_succ_of_ne_zero (by omega : n ≠ 0)
    obtain ⟨m₁, rfl⟩ := Nat.exists_eq_succ_of_ne_zero (by omega : m ≠ 0)
    have ha : attemptHasText (attempts i) = true := by simpa using hfirst
    simp only [verifyLoop, ha, if_true]
  | succ c ih =>
    intro i status n m hn hm hfirst hbefore
    obtain ⟨n₁, rfl⟩ := Nat.exists_eq_succ_of_ne_zero (by omega : n ≠ 0)
    obtain ⟨m₁, rfl⟩ := Nat.exists_eq_succ_of_ne_zero (by omega : m ≠ 0)
    have ha : attemptHasText (attempts i) = false := by
      simpa using hbefore 0 (Nat.succ_pos c)
    simp only [verifyLoop, ha, if_false, Bool.false_eq_true]
    exact ih (i + 1) _ n₁ m₁ (by omega) (by omega)
      (by
        have : i + 1 + c = i + (c + 1) := by omega
        rwa [this])
      (fun j hj => by
        have : i + 1 + j = i + (j + 1) := by omega
        rw [this]
        exact hbefore (j + 1) (by omega))

/-- C3 — confirmed. verify_profile_with_ocr succeeds iff at least one of the
up-to-max_attempts OCR passes detects a qualifying character in the processed
image text, and it returns at the first attempt where text is present: the
whole result equals the run truncated right after that attempt. -/
theorem verify_ocr_success_iff_text_found (attempts : Nat → OCRAttempt)
    (cleanFlag : Bool) (maxAttempts : Nat) (_hmax : 1 ≤ maxAttempts) :
    ((verify_profile_with_ocr attempts cleanFlag maxAttempts).success = true ↔
      ∃ i, i < maxAttempts ∧ attemptHasText (attempts i) = true) ∧
    (∀ i, i < maxAttempts → attemptHasText (attempts i) = true →
      (∀ j < i, attemptHasText (attempts j) = false) →
      verify_profile_with_ocr attempts cleanFlag maxAttempts =
        verify_profile_with_ocr attempts cleanFlag (i + 1)) := by
  constructor
  · rw [verify_profile_with_ocr, verifyLoop_success_iff]
    constructor
    · rintro ⟨j, hj, hjt⟩
      exact ⟨j, hj, by simpa using hjt⟩
    · rintro ⟨j, hj, hjt⟩
      exact ⟨j, hj, by simpa using hjt⟩
  · intro i hi hit hbefore
    exact verifyLoop_early_return attempts cleanFlag i 0 "NA" maxAttempts
      (i + 1) hi (by omega) (by simpa using hit)
      (fun j hj => by simpa using hbefore j hj)

/-- Witness for C3: with the first OCR pass failing to decode and the second
reading text, the verification succeeds and the run with three attempts
equals the run truncated after the second attempt. -/
theorem verify_ocr_success_iff_text_found_witness :
    (verify_profile_with_ocr attemptsTextAtOne true 3).success = true ∧
    verify_profile_with_ocr attemptsTextAtOne true 3 =
      verify_profile_with_ocr attemptsTextAtOne true 2 := by
  have h := verify_ocr_success_iff_text_found attemptsTextAtOne true 3
    (by decide)
  refine ⟨?_, ?_⟩
  · exact h.1.mpr ⟨1, by decide, by decide⟩
  · exact h.2 1 (by decide) (by decide) (by decide)

/-- C8 — the code deletes the screenshot on the exhausted-failure path even
when the clean-screenshots flag is unset: `_cleanup_image` is called
unconditionally at ocr_processor.py line 192 although its own docstring says
the removal happens only if configured, and the parallel implementation
`verificar_nombre_con_ocr` consults the flag on both paths. With the flag
unset, success keeps the file, failure still deletes it; the sibling
implementation keeps it in both outcomes. -/
theorem verify_ocr_failure_deletes_unconditionally :
    verify_profile_with_ocr attemptsNeverText false 3 =
      ⟨false, "NA", true⟩ ∧
    verify_profile_with_ocr attemptsAlwaysText false 3 =
      ⟨true, "No", false⟩ ∧
    verificar_nombre_con_ocr attemptsNeverText false 3 =
      ⟨false, "NA", false⟩ ∧
    verificar_nombre_con_ocr attemptsAlwaysText false 3 =
      ⟨true, "No", false⟩ := by
  exact ⟨rfl, rfl, rfl, rfl⟩

/-- The scraper_simple implementation deletes the screenshot iff the flag is
set, on every path. -/
theorem verificar_deletes_iff_flag (attempts : Nat → OCRAttempt)
    (cleanFlag : Bool) :
    ∀ (fuel i : Nat) (status : String),
      (verificarLoop attempts cleanFlag i status fuel).screenshotDeleted =
        cleanFlag := by
  intro fuel
  induction fuel with
  | zero => intro i status; rfl
  | succ fuel ih =>
    intro i status
    by_cases ha : attemptHasText (attempts i) = true
    · simp [verificarLoop, ha]
    · simp only [verificarLoop, ha, if_false, Bool.false_eq_true]
      exact ih (i + 1) _

/- ------------------------------------------------------------------ -/
/- Image-URL discovery: C4.                                             -/
/- ------------------------------------------------------------------ -/

/-- Monotonicity of the scroll/scan loop: the accumulated URL set never loses
an element — whatever set the loop returns extends the set it started from. -/
theorem urlLoop_mono (scans : Nat → List String) (m : Nat) :
    ∀ (fuel t noChange : Nat) (found r : Finset String),
      urlLoop scans m t found noChange fuel = some r → found ⊆ r := by
  intro fuel
  induction fuel with
  | zero =>
    intro t noChange found r h
    simp [urlLoop] at h
  | succ fuel ih =>
    intro t noChange found r h
    simp only [urlLoop] at h
    by_cases hnc : noChange < m
    · rw [if_pos hnc] at h
      by_cases hne : extractedUrlSet (scans t) \ found ≠ ∅
      · rw [if_pos hne] at h
        have hsub := ih (t + 1) 0 (found ∪ (extractedUrlSet (scans t) \ found)) r h
        exact fun x hx => hsub (Finset.mem_union_left _ hx)
      · rw [if_neg hne] at h
        exact ih (t + 1) (noChange + 1) found r h
    · rw [if_neg hnc] at h
      injection h with h
      exact h ▸ Finset.Subset.refl found

/-- Termination of the scroll/scan loop: when every scan yields a subset of a
fixed finite set U, the loop halts within a fuel bound linear in the size of
U and the consecutive-no-change bound. -/
theorem urlLoop_terminates (scans : Nat → List String) (m : Nat)
    (U : Finset String) (hsub : ∀ t, extractedUrlSet (scans t) ⊆ U) :
    ∀ (fuel t : Nat) (found : Finset String) (noChange : Nat),
      found ⊆ U →
      (U.card - found.card) * (m + 1) + (m - noChange) < fuel →
      (urlLoop scans m t found noChange fuel).isSome = true := by
  intro fuel
  induction fuel with
  | zero =>
    intro t found noChange _ hlt
    omega
  | succ fuel ih =>
    intro t found noChange hfU hlt
    simp only [urlLoop]
    by_cases hnc : noChange < m
    · rw [if_pos hnc]
      by_cases hne : extractedUrlSet (scans t) \ found ≠ ∅
      · rw [if_pos hne]
        have hFU : found ∪ (extractedUrlSet (scans t) \ found) ⊆ U := by
          intro x hx
          rcases Finset.mem_union.mp hx with hx | hx
          · exact hfU hx
          · exact hsub t (Finset.mem_sdiff.mp hx).1
        apply ih (t + 1) _ 0 hFU
        have hcard : found.card <
            (found ∪ (extractedUrlSet (scans t) \ found)).card := by
          rw [Finset.card_union_of_disjoint Finset.disjoint_sdiff]
          have hpos := Finset.card_pos.mpr
            (Finset.nonempty_iff_ne_empty.mpr hne)
          omega
        have hFle : (found ∪ (extractedUrlSet (scans t) \ found)).card ≤
            U.card := Finset.card_le_card hFU
        have hfle : found.card ≤ U.card := Finset.card_le_card hfU
        have key : (U.card - (found ∪ (extractedUrlSet (scans t) \
            found)).card) + 1 ≤ U.card - found.card := by omega
        have key2 := Nat.mul_le_mul_right (m + 1) key
        rw [Nat.succ_mul] at key2
        generalize hA : (U.card - (found ∪ (extractedUrlSet (scans t) \
            found)).card) * (m + 1) = A at key2 ⊢
        generalize hB : (U.card - found.card) * (m + 1) = B at key2 hlt
        omega
      · rw [if_neg hne]
        apply ih (t + 1) found (noChange + 1) hfU
        generalize hB : (U.card - found.card) * (m + 1) = B at hlt ⊢
        omega
    · rw [if_neg hnc]
      rfl

/-- After the accumulated set holds the whole discoverable set and every scan
keeps returning exactly that set, the loop counts the remaining no-change
iterations down and returns the set. -/
theorem urlLoop_stable (scans : Nat → List String) (m : Nat)
    (U : Finset String) (hall : ∀ t, extractedUrlSet (scans t) = U) :
    ∀ (k t noChange fuel : Nat), noChange + k = m → k + 1 ≤ fuel →
      urlLoop scans m t U noChange fuel = some U := by
  intro k
  induction k with
  | zero =>
    intro t noChange fuel hk hf
    obtain ⟨f₁, rfl⟩ := Nat.exists_eq_succ_of_ne_zero (by omega : fuel ≠ 0)
    simp only [urlLoop]
    rw [if_neg (by omega)]
  | succ k ih =>
    intro t noChange fuel hk hf
    obtain ⟨f₁, rfl⟩ := Nat.exists_eq_succ_of_ne_zero (by omega : fuel ≠ 0)
    simp only [urlLoop]
    rw [if_pos (by omega : noChange < m)]
    have hdiff : extractedUrlSet (scans t) \ U = ∅ := by
      rw [hall t]
      exact Finset.sdiff_self U
    rw [if_neg (by simp [hdiff])]
    exact ih (t + 1) (noChange + 1) f₁ (by omega) (by omega)

/-- Completeness of the loop when every scan returns the whole discoverable
set: with at least one allowed no-change scroll and enough fuel the loop
returns exactly that set. -/
theorem extract_image_urls_complete (scans : Nat → List String) (m : Nat)
    (U : Finset String) (hall : ∀ t, extractedUrlSet (scans t) = U)
    (hm : 1 ≤ m) :
    ∀ fuel, m + 2 ≤ fuel → extract_image_urls scans m fuel = some U := by
  intro fuel hf
  rw [extract_image_urls]
  by_cases hU : U = ∅
  · subst hU
    exact urlLoop_stable scans m ∅ hall m 0 0 fuel (by omega) (by omega)
  · obtain ⟨f₁, rfl⟩ := Nat.exists_eq_succ_of_ne_zero (by omega : fuel ≠ 0)
    simp only [urlLoop]
    rw [if_pos (by omega : 0 < m)]
    have hdiff : extractedUrlSet (scans 0) \ ∅ = U := by
      rw [hall 0]
      exact Finset.sdiff_empty
    rw [if_pos (by rw [hdiff]; exact hU)]
    rw [show (∅ : Finset String) ∪ (extractedUrlSet (scans 0) \ ∅) = U by
      rw [hdiff]; exact Finset.empty_union U]
    exact urlLoop_stable scans m U hall m 1 0 f₁ (by omega) (by omega)

set_option maxRecDepth 8000 in
/-- C4 — counterexample. With a no-change bound of 1, a first scan seeing
nothing and every later scan seeing the full discoverable set, the loop gives
up after the first scan and returns the empty set — not the discoverable set
— even though the scans eventually return all of it. -/
theorem url_discovery_eventual_set_not_reached :
    extract_image_urls scansLate 1 10 = some ∅ ∧
    extractedUrlSet (scansLate 0) = ∅ ∧
    extractedUrlSet (scansLate 1) = {cexUrl} ∧
    (∅ : Finset String) ≠ {cexUrl} := by
  refine ⟨rfl, rfl, by decide, (Finset.singleton_ne_empty cexUrl).symm⟩

/-- C4 — amended. The scroll/scan loop is monotonic (the accumulated set
never loses an element), terminates within a fuel bound linear in the size of
the discoverable set times the consecutive-no-change bound whenever each scan
returns a subset of that set, and returns exactly the discoverable set when
every scan returns all of it (rather than merely eventually). -/
theorem url_discovery_monotone_terminating (scans : Nat → List String)
    (m : Nat) (U : Finset String) :
    (∀ (fuel t noChange : Nat) (found r : Finset String),
      urlLoop scans m t found noChange fuel = some r → found ⊆ r) ∧
    ((∀ t, extractedUrlSet (scans t) ⊆ U) →
      ∃ fuel, fuel ≤ U.card * (m + 1) + m + 1 ∧
        (extract_image_urls scans m fuel).isSome = true) ∧
    ((∀ t, extractedUrlSet (scans t) = U) → 1 ≤ m →
      ∀ fuel, m + 2 ≤ fuel → extract_image_urls scans m fuel = some U) := by
  refine ⟨urlLoop_mono scans m, ?_, ?_⟩
  · intro hsub
    refine ⟨U.card * (m + 1) + m + 1, Nat.le_refl _, ?_⟩
    apply urlLoop_terminates scans m U hsub _ 0 ∅ 0 (Finset.empty_subset U)
    simp only [Finset.card_empty, Nat.sub_zero]
    omega
  · intro hall hm
    exact extract_image_urls_complete scans m U hall hm

set_option maxRecDepth 8000 in
/-- Witness for C4's amended statement: scans that always see the single
qualifying URL make the loop return exactly that singleton set. -/
theorem url_discovery_monotone_terminating_witness :
    extract_image_urls scansAlways 1 4 = some {cexUrl} := by
  have hall : ∀ t, extractedUrlSet (scansAlways t) = {cexUrl} := by
    intro t
    show extractedUrlSet [cexUrl] = {cexUrl}
    decide
  exact (url_discovery_monotone_terminating scansAlways 1 {cexUrl}).2.2
    hall (by decide) 4 (by decide)
